import Mathlib

/-
Verification development for the southbound gNMI session-management package
(package `southbound`: `createDestination`, `ConnectTarget`, `GetTarget`,
unary/string operations, `Close`, `Subscribe`, `NewSubscribeRequest`).
The Go code is shallowly embedded: pure functions become Lean functions,
the global target registry and the close side effects become explicit state
passing, and fallible operations return `Except`.
-/

namespace OnosConfig

/-! ## Data model

Device descriptor (`topodevice.Device`), destination (`client.Destination`),
and TLS configuration (`crypto/tls.Config`), restricted to the fields the
embedded code reads or writes.  Certificate pools and certificates are kept
symbolic (which file or embedded default they were loaded from), since the
code only ever installs them whole. -/

/-- TLS-related fields of the device descriptor (`device.TLS` in Go). -/
structure DeviceTLSConfig where
  Plain : Bool
  Insecure : Bool
  CaCert : String
  Cert : String
  Key : String
  deriving DecidableEq

/-- Credential fields of the device descriptor (`device.Credentials`). -/
structure DeviceCredentials where
  User : String
  Password : String
  deriving DecidableEq

/-- Device descriptor (`topodevice.Device`), restricted to the fields read by
`createDestination`. `Timeout` is an optional duration (nil pointer = `none`). -/
structure Device where
  ID : String
  Version : String
  Address : String
  Target : String
  Timeout : Option Nat
  TLS : DeviceTLSConfig
  Credentials : DeviceCredentials
  deriving DecidableEq

/-- Modelled from the spec: VersionedID is the device identity, the pair of
device ID and device version (the declaration lives in the external
`onos-api` device package; only its constructor `NewVersionedID id version`
is called from the embedded code). -/
structure VersionedID where
  id : String
  version : String
  deriving DecidableEq

/-- Symbolic root-CA pool: `getCertPoolDefault` (embedded ONF CA) or
`getCertPool caPath` (loaded from a file path). -/
inductive CertPool where
  | defaultPool
  | fromFile (caPath : String)
  deriving DecidableEq

/-- Symbolic client certificate: the embedded default keypair
(`certs.DefaultClientCrt`/`DefaultClientKey`) or the keypair loaded by
`setCertificate certPath keyPath`. -/
inductive Certificate where
  | defaultPair
  | fromFiles (certPath keyPath : String)
  deriving DecidableEq

/-- The fields of `crypto/tls.Config` the code writes. -/
structure TLSConfig where
  InsecureSkipVerify : Bool
  RootCAs : Option CertPool
  Certificates : List Certificate
  deriving DecidableEq

/-- Username/password credential attached to a destination
(`client.Credentials`). -/
structure Creds where
  Username : String
  Password : String
  deriving DecidableEq

/-- Destination (`client.Destination`): the fields `createDestination` sets.
`TLS = none` models a nil TLS config (plaintext transport). -/
structure Destination where
  Addrs : List String
  Target : String
  Timeout : Option Nat
  TLS : Option TLSConfig
  Credentials : Option Creds
  deriving DecidableEq

/-! ## Certificate/credential resolver (`createDestination`)

Direct transcription of `createDestination` in the source: first the TLS
config is created (fresh insecure config when `Insecure` is set), then the
root-CA pool is installed (default pool when no CA path), then the client
identity is chosen by the source's branch chain, whose final `else` branch
replaces the whole TLS config by a bare insecure-skip-verify one. -/

def createDestination (device : Device) : Destination × VersionedID :=
  let base : Destination :=
    { Addrs := [device.Address], Target := device.Target,
      Timeout := device.Timeout, TLS := none, Credentials := none }
  let key : VersionedID := { id := device.ID, version := device.Version }
  if device.TLS.Plain then
    (base, key)
  else
    let tls0 : TLSConfig :=
      if device.TLS.Insecure then
        { InsecureSkipVerify := true, RootCAs := none, Certificates := [] }
      else
        { InsecureSkipVerify := false, RootCAs := none, Certificates := [] }
    let tls1 : TLSConfig :=
      if device.TLS.CaCert = "" then
        { tls0 with RootCAs := some CertPool.defaultPool }
      else
        { tls0 with RootCAs := some (CertPool.fromFile device.TLS.CaCert) }
    let final : Destination :=
      if device.TLS.Cert = "" ∧ device.TLS.Key = "" then
        { base with TLS := some { tls1 with Certificates := [Certificate.defaultPair] } }
      else if device.TLS.Cert ≠ "" ∧ device.TLS.Key ≠ "" then
        { base with TLS := some { tls1 with
            Certificates := [Certificate.fromFiles device.TLS.Cert device.TLS.Key] } }
      else if device.Credentials.User ≠ "" ∧ device.Credentials.Password ≠ "" then
        { base with TLS := some tls1,
                    Credentials := some { Username := device.Credentials.User,
                                          Password := device.Credentials.Password } }
      else
        { base with TLS := some { InsecureSkipVerify := true, RootCAs := none,
                                  Certificates := [] } }
    (final, key)

/-! ## Claims C1 and C10 (resolver client identity) -/

/-- Claim C1, counterexample: a secure device with no client certificate or
key path but with username and password both set resolves to a destination
that carries NO credentials and DOES carry the embedded default client
keypair — the opposite of what the claim states for this input (the source
tests `Cert == "" && Key == ""` first, before ever looking at credentials). -/
theorem claim_C1_counterexample :
    (createDestination
      { ID := "Device1", Version := "1.0.0", Address := "localhost:10161",
        Target := "", Timeout := none,
        TLS := { Plain := false, Insecure := false, CaCert := "", Cert := "", Key := "" },
        Credentials := { User := "user", Password := "password" } }).1.Credentials
      = none ∧
    (createDestination
      { ID := "Device1", Version := "1.0.0", Address := "localhost:10161",
        Target := "", Timeout := none,
        TLS := { Plain := false, Insecure := false, CaCert := "", Cert := "", Key := "" },
        Credentials := { User := "user", Password := "password" } }).1.TLS
      = some { InsecureSkipVerify := false, RootCAs := some CertPool.defaultPool,
               Certificates := [Certificate.defaultPair] } := by
  exact ⟨rfl, rfl⟩

/-- Claim C1, amended: for a secure (non-plaintext) device the resolver
chooses the client identity by the source's branch order: if certificate and
key paths are BOTH absent it uses the embedded default keypair (regardless of
any credentials); if both are present it uses that keypair; only when exactly
one of the two paths is present and username and password are both set does
it attach credential-based auth with no client certificate. -/
theorem claim_C1_amended (device : Device) (hplain : device.TLS.Plain = false) :
    (device.TLS.Cert = "" → device.TLS.Key = "" →
      ∃ cfg : TLSConfig, (createDestination device).1.TLS = some cfg ∧
        cfg.Certificates = [Certificate.defaultPair] ∧
        (createDestination device).1.Credentials = none) ∧
    (device.TLS.Cert ≠ "" → device.TLS.Key ≠ "" →
      ∃ cfg : TLSConfig, (createDestination device).1.TLS = some cfg ∧
        cfg.Certificates = [Certificate.fromFiles device.TLS.Cert device.TLS.Key] ∧
        (createDestination device).1.Credentials = none) ∧
    (¬(device.TLS.Cert = "" ↔ device.TLS.Key = "") →
      device.Credentials.User ≠ "" → device.Credentials.Password ≠ "" →
      ∃ cfg : TLSConfig, (createDestination device).1.TLS = some cfg ∧
        cfg.Certificates = [] ∧
        (createDestination device).1.Credentials
          = some { Username := device.Credentials.User,
                   Password := device.Credentials.Password }) := by
  refine ⟨?_, ?_, ?_⟩
  · intro hc hk
    simp only [createDestination, hplain]
    simp only [hc, hk]
    by_cases hca : device.TLS.CaCert = "" <;>
      by_cases hins : device.TLS.Insecure = true <;>
        simp [hca, hins]
  · intro hc hk
    simp only [createDestination, hplain]
    have hnot : ¬(device.TLS.Cert = "" ∧ device.TLS.Key = "") := by
      intro h; exact hc h.1
    by_cases hca : device.TLS.CaCert = "" <;>
      by_cases hins : device.TLS.Insecure = true <;>
        simp [hnot, hc, hk, hca, hins]
  · intro hxor hu hp
    have hnotboth : ¬(device.TLS.Cert = "" ∧ device.TLS.Key = "") := by
      intro h; exact hxor ⟨fun _ => h.2, fun _ => h.1⟩
    have hnotneither : ¬(device.TLS.Cert ≠ "" ∧ device.TLS.Key ≠ "") := by
      intro h
      exact hxor ⟨fun hc => absurd hc h.1, fun hk => absurd hk h.2⟩
    simp only [createDestination, hplain]
    by_cases hca : device.TLS.CaCert = "" <;>
      by_cases hins : device.TLS.Insecure = true <;>
        simp [hnotboth, hnotneither, hu, hp, hca, hins]

/-- Claim C1, amended, witness: a device with exactly one of cert/key set and
both credentials set resolves to credential-based auth with no client
certificate. -/
theorem claim_C1_amended_witness :
    ∃ cfg : TLSConfig,
      (createDestination
        { ID := "Device1", Version := "1.0.0", Address := "localhost:10161",
          Target := "", Timeout := none,
          TLS := { Plain := false, Insecure := false, CaCert := "",
                   Cert := "cert path", Key := "" },
          Credentials := { User := "User", Password := "Password" } }).1.TLS = some cfg ∧
      cfg.Certificates = [] ∧
      (createDestination
        { ID := "Device1", Version := "1.0.0", Address := "localhost:10161",
          Target := "", Timeout := none,
          TLS := { Plain := false, Insecure := false, CaCert := "",
                   Cert := "cert path", Key := "" },
          Credentials := { User := "User", Password := "Password" } }).1.Credentials
        = some { Username := "User", Password := "Password" } :=
  (claim_C1_amended
    { ID := "Device1", Version := "1.0.0", Address := "localhost:10161",
      Target := "", Timeout := none,
      TLS := { Plain := false, Insecure := false, CaCert := "",
               Cert := "cert path", Key := "" },
      Credentials := { User := "User", Password := "Password" } } rfl).2.2
    (by decide) (by decide) (by decide)

/-- Claim C10: a secure device that reaches the degraded fallback branch
(exactly one of cert path and key path non-empty, and credentials not both
present) gets its ENTIRE TLS config replaced by one containing only
InsecureSkipVerify = true: the root-CA pool installed earlier is discarded,
no client certificate is attached, and no credentials are attached. -/
theorem claim_C10 (device : Device) (hplain : device.TLS.Plain = false)
    (hxor : ¬(device.TLS.Cert = "" ↔ device.TLS.Key = ""))
    (hcred : ¬(device.Credentials.User ≠ "" ∧ device.Credentials.Password ≠ "")) :
    (createDestination device).1.TLS
      = some { InsecureSkipVerify := true, RootCAs := none, Certificates := [] } ∧
    (createDestination device).1.Credentials = none := by
  have hnotboth : ¬(device.TLS.Cert = "" ∧ device.TLS.Key = "") := by
    intro h; exact hxor ⟨fun _ => h.2, fun _ => h.1⟩
  have hnotneither : ¬(device.TLS.Cert ≠ "" ∧ device.TLS.Key ≠ "") := by
    intro h
    exact hxor ⟨fun hc => absurd hc h.1, fun hk => absurd hk h.2⟩
  simp only [createDestination, hplain]
  by_cases hca : device.TLS.CaCert = "" <;>
    by_cases hins : device.TLS.Insecure = true <;>
      simp [hnotboth, hnotneither, hcred, hca, hins]

/-- Claim C10, witness: a device with a CA path, a cert path but no key path
and no credentials resolves to the bare insecure-skip-verify TLS config with
the loaded CA pool discarded. -/
theorem claim_C10_witness :
    (createDestination
      { ID := "Device1", Version := "1.0.0", Address := "localhost:10161",
        Target := "", Timeout := none,
        TLS := { Plain := false, Insecure := false, CaCert := "testdata/onfca.crt",
                 Cert := "cert path", Key := "" },
        Credentials := { User := "", Password := "" } }).1.TLS
      = some { InsecureSkipVerify := true, RootCAs := none, Certificates := [] } ∧
    (createDestination
      { ID := "Device1", Version := "1.0.0", Address := "localhost:10161",
        Target := "", Timeout := none,
        TLS := { Plain := false, Insecure := false, CaCert := "testdata/onfca.crt",
                 Cert := "cert path", Key := "" },
        Credentials := { User := "", Password := "" } }).1.Credentials = none :=
  claim_C10
    { ID := "Device1", Version := "1.0.0", Address := "localhost:10161",
      Target := "", Timeout := none,
      TLS := { Plain := false, Insecure := false, CaCert := "testdata/onfca.crt",
               Cert := "cert path", Key := "" },
      Credentials := { User := "", Password := "" } } rfl (by decide) (by decide)

/-! ## Target sessions and the connection registry

Modelled from the spec where declarations are outside the examined fragment:
the Target struct ("Target Session: mutable entity holding {Destination,
current protocol client handle, execution context}") and the GnmiClient
handle (an interface type: its zero value is nil, modelled as `none`).
Clients are symbolic handles; closing a client is recorded in an explicit
log, so "closes exactly once" is a statement about that log.  The global
`targets` map becomes an explicit association list whose keys Go keeps
unique (map assignment replaces the binding for an existing key). -/

/-- Symbolic protocol client handle, identified like a Go interface value. -/
structure GnmiClient where
  id : Nat
  deriving DecidableEq

/-- Modelled from the spec: the Target Session struct — destination, current
client handle (`clt`, nil = `none`) and execution context (`ctx`, abstract,
nil = `none`); the fields are exactly those the embedded methods access. -/
structure Target where
  dest : Destination
  clt : Option GnmiClient
  ctx : Option Nat
  deriving DecidableEq

/-- Registry-level errors, carrying the data the Go error messages render. -/
inductive SBError where
  | connectFailed (cause : String)
  | notFound (key : VersionedID) (known : List VersionedID)
  deriving DecidableEq

/-- Global southbound state: the `targets` registry map and the log of
clients on which Close() has been invoked. -/
structure SBState where
  registry : List (VersionedID × Target)
  closed : List GnmiClient
  deriving DecidableEq

/-- Go map assignment `targets[key] = target`: replace any binding of the
key, keep everything else (Go map iteration order is unspecified, so the
position of the binding is not observable in the source). -/
def mapInsert (k : VersionedID) (v : Target) (m : List (VersionedID × Target)) :
    List (VersionedID × Target) :=
  m.filter (fun p => p.1 ≠ k) ++ [(k, v)]

/-- Go map lookup `targets[key]`. -/
def lookupReg (k : VersionedID) (m : List (VersionedID × Target)) : Option Target :=
  (m.find? (fun p => p.1 = k)).map Prod.snd

/-- How many bindings a key has (a Go map always has at most one). -/
def countKey (k : VersionedID) (m : List (VersionedID × Target)) : Nat :=
  m.countP (fun p => p.1 = k)

/-- Membership test for a key. -/
def containsKey (k : VersionedID) (m : List (VersionedID × Target)) : Bool :=
  m.any (fun p => p.1 = k)

/-- The key enumeration `GetTarget` renders into its error message
(`for t := range targets`). -/
def knownKeys (m : List (VersionedID × Target)) : List VersionedID :=
  m.map Prod.fst

/-- GetTarget: cache lookup; on a miss, a NotFound error enumerating the
currently known keys.  The state is threaded to express that the lookup is
read-only. -/
def GetTarget (st : SBState) (key : VersionedID) : Except SBError Target × SBState :=
  match lookupReg key st.registry with
  | some t => (.ok t, st)
  | none => (.error (.notFound key (knownKeys st.registry)), st)

/-- ConnectTarget: resolve the destination, open a client through the
injected factory; on factory failure return the error untouched; on success
close the session's previous client (if any), swap in the new destination,
client and context, and publish the session in the registry. -/
def connectTarget (factory : Destination → Except String GnmiClient)
    (ctx : Nat) (target : Target) (device : Device) (st : SBState) :
    Except SBError VersionedID × Target × SBState :=
  let dk := createDestination device
  match factory dk.1 with
  | .error e =>
      (.error (.connectFailed ("could not create a gNMI client: " ++ e)), target, st)
  | .ok c =>
      let closed' :=
        match target.clt with
        | some old => st.closed ++ [old]
        | none => st.closed
      let target' : Target := { dest := dk.1, clt := some c, ctx := some ctx }
      (.ok dk.2, target',
       { registry := mapInsert dk.2 target' st.registry, closed := closed' })

/-- Close: `target.Client().Close()`.  The held client, if any, is closed
(recorded in the log); when no client is set the method call dereferences a
nil interface value, which panics at runtime — modelled as `none`. -/
def TargetCloseOp (t : Target) (st : SBState) : Option SBState :=
  match t.clt with
  | none => none
  | some c => some { st with closed := st.closed ++ [c] }

/-! ### Registry lemmas -/

theorem lookupReg_mapInsert (k : VersionedID) (v : Target)
    (m : List (VersionedID × Target)) : lookupReg k (mapInsert k v m) = some v := by
  unfold lookupReg mapInsert
  induction m with
  | nil => simp [List.find?]
  | cons p rest ih =>
      by_cases h : p.1 = k
      · rw [List.filter_cons_of_neg (by simp [h])]
        exact ih
      · rw [List.filter_cons_of_pos (by simp [h]), List.cons_append,
          List.find?_cons_of_neg _ (by simp [h])]
        exact ih

theorem countKey_mapInsert (k : VersionedID) (v : Target)
    (m : List (VersionedID × Target)) : countKey k (mapInsert k v m) = 1 := by
  unfold countKey mapInsert
  rw [List.countP_append]
  have hz : (m.filter (fun p => p.1 ≠ k)).countP (fun p => decide (p.1 = k)) = 0 := by
    rw [List.countP_eq_zero]
    intro p hp
    have := List.of_mem_filter hp
    simpa using this
  simp [hz, List.countP_cons]

theorem lookupReg_eq_none_of_not_contains (k : VersionedID)
    (m : List (VersionedID × Target)) (h : containsKey k m = false) :
    lookupReg k m = none := by
  unfold lookupReg
  unfold containsKey at h
  induction m with
  | nil => rfl
  | cons p rest ih =>
      simp only [List.any_cons, Bool.or_eq_false_iff] at h
      rw [List.find?_cons_of_neg _ (by simp [h.1])]
      exact ih h.2

/-! ## Claim C2 (factory failure leaves everything untouched) -/

/-- Claim C2: if the injected client factory fails, ConnectTarget returns the
connect error and performs no mutation — the registry map is unchanged and
the session's destination, client handle and context fields keep their
previous values (so a previously connected good client for the same key
survives the failed reconnect attempt). -/
theorem claim_C2 (factory : Destination → Except String GnmiClient)
    (ctx : Nat) (target : Target) (device : Device) (st : SBState) (e : String)
    (hfail : factory (createDestination device).1 = .error e) :
    (connectTarget factory ctx target device st).1
        = .error (.connectFailed ("could not create a gNMI client: " ++ e)) ∧
    (connectTarget factory ctx target device st).2.1 = target ∧
    (connectTarget factory ctx target device st).2.2 = st := by
  simp [connectTarget, hfail]

/-- Claim C2, witness: a failing factory applied to a session that already
holds a good client leaves the session and the registry exactly as they
were. -/
theorem claim_C2_witness :
    (connectTarget (fun _ => .error "dial failed") 7
      { dest := { Addrs := ["localhost:10161"], Target := "", Timeout := none,
                  TLS := none, Credentials := none },
        clt := some { id := 1 }, ctx := some 3 }
      { ID := "Device1", Version := "1.0.0", Address := "localhost:10161",
        Target := "", Timeout := none,
        TLS := { Plain := true, Insecure := false, CaCert := "", Cert := "", Key := "" },
        Credentials := { User := "", Password := "" } }
      { registry := [({ id := "Device1", version := "1.0.0" },
          { dest := { Addrs := ["localhost:10161"], Target := "", Timeout := none,
                      TLS := none, Credentials := none },
            clt := some { id := 1 }, ctx := some 3 })], closed := [] }).1
      = .error (.connectFailed ("could not create a gNMI client: " ++ "dial failed")) ∧
    (connectTarget (fun _ => .error "dial failed") 7
      { dest := { Addrs := ["localhost:10161"], Target := "", Timeout := none,
                  TLS := none, Credentials := none },
        clt := some { id := 1 }, ctx := some 3 }
      { ID := "Device1", Version := "1.0.0", Address := "localhost:10161",
        Target := "", Timeout := none,
        TLS := { Plain := true, Insecure := false, CaCert := "", Cert := "", Key := "" },
        Credentials := { User := "", Password := "" } }
      { registry := [({ id := "Device1", version := "1.0.0" },
          { dest := { Addrs := ["localhost:10161"], Target := "", Timeout := none,
                      TLS := none, Credentials := none },
            clt := some { id := 1 }, ctx := some 3 })], closed := [] }).2.1
      = { dest := { Addrs := ["localhost:10161"], Target := "", Timeout := none,
                    TLS := none, Credentials := none },
          clt := some { id := 1 }, ctx := some 3 } ∧
    (connectTarget (fun _ => .error "dial failed") 7
      { dest := { Addrs := ["localhost:10161"], Target := "", Timeout := none,
                  TLS := none, Credentials := none },
        clt := some { id := 1 }, ctx := some 3 }
      { ID := "Device1", Version := "1.0.0", Address := "localhost:10161",
        Target := "", Timeout := none,
        TLS := { Plain := true, Insecure := false, CaCert := "", Cert := "", Key := "" },
        Credentials := { User := "", Password := "" } }
      { registry := [({ id := "Device1", version := "1.0.0" },
          { dest := { Addrs := ["localhost:10161"], Target := "", Timeout := none,
                      TLS := none, Credentials := none },
            clt := some { id := 1 }, ctx := some 3 })], closed := [] }).2.2
      = { registry := [({ id := "Device1", version := "1.0.0" },
          { dest := { Addrs := ["localhost:10161"], Target := "", Timeout := none,
                      TLS := none, Credentials := none },
            clt := some { id := 1 }, ctx := some 3 })], closed := [] } :=
  claim_C2 (fun _ => .error "dial failed") 7 _ _ _ "dial failed" rfl

/-! ## Claim C3 (reconnect replaces the client, closing the old one once) -/

/-- Claim C3: connecting twice successfully for the same device identity
closes the first client exactly once (the close log grows by exactly that
client), leaves the registry with exactly one binding for that key, whose
session's client handle is the second client, and a subsequent lookup
returns that session — never the first client. -/
theorem claim_C3
    (f1 f2 : Destination → Except String GnmiClient) (ctx1 ctx2 : Nat)
    (device : Device) (t0 : Target) (st0 : SBState) (c1 c2 : GnmiClient)
    (r1 r2 : Except SBError VersionedID) (t1 t2 : Target) (st1 st2 : SBState)
    (h0 : t0.clt = none) (hne : c1 ≠ c2)
    (h1 : f1 (createDestination device).1 = .ok c1)
    (h2 : f2 (createDestination device).1 = .ok c2)
    (e1 : connectTarget f1 ctx1 t0 device st0 = (r1, t1, st1))
    (e2 : connectTarget f2 ctx2 t1 device st1 = (r2, t2, st2)) :
    st2.closed = st0.closed ++ [c1] ∧
    countKey (createDestination device).2 st2.registry = 1 ∧
    lookupReg (createDestination device).2 st2.registry = some t2 ∧
    t2.clt = some c2 ∧
    (GetTarget st2 (createDestination device).2).1 = .ok t2 ∧
    (∀ t, lookupReg (createDestination device).2 st2.registry = some t →
      t.clt ≠ some c1) := by
  simp only [connectTarget, h1, h0, Prod.mk.injEq] at e1
  obtain ⟨er1, et1, est1⟩ := e1
  subst er1; subst et1; subst est1
  simp only [connectTarget, h2, Prod.mk.injEq] at e2
  obtain ⟨er2, et2, est2⟩ := e2
  subst er2; subst et2; subst est2
  refine ⟨rfl, countKey_mapInsert _ _ _, lookupReg_mapInsert _ _ _, rfl, ?_, ?_⟩
  · unfold GetTarget
    rw [lookupReg_mapInsert]
  · intro t ht
    rw [lookupReg_mapInsert] at ht
    cases ht
    show some c2 ≠ some c1
    simp only [ne_eq, Option.some.injEq]
    intro hbad
    exact hne hbad.symm

/-- Device fixture: a plaintext device descriptor. -/
def devicePlain : Device :=
  { ID := "Device1", Version := "1.0.0", Address := "localhost:10161",
    Target := "", Timeout := none,
    TLS := { Plain := true, Insecure := false, CaCert := "", Cert := "", Key := "" },
    Credentials := { User := "", Password := "" } }

/-- Session fixture: the zero-valued Target Session. -/
def emptyTarget : Target :=
  { dest := { Addrs := [], Target := "", Timeout := none, TLS := none,
              Credentials := none },
    clt := none, ctx := none }

/-- State fixture: the empty registry with an empty close log. -/
def emptyState : SBState := { registry := [], closed := [] }

/-- Session fixture: the session as it stands after the second connect of the
reconnect scenario. -/
def c3SecondTarget : Target :=
  { dest := (createDestination devicePlain).1, clt := some { id := 2 },
    ctx := some 9 }

/-- State fixture: the state after the reconnect scenario — one binding, and
exactly one close of the first client. -/
def c3FinalState : SBState :=
  { registry := [({ id := "Device1", version := "1.0.0" }, c3SecondTarget)],
    closed := [{ id := 1 }] }

/-- Claim C3, witness: two successful connects for the same plain device with
distinct factory-produced clients; the close log is exactly the first client,
the registry holds one binding whose session carries the second client, and
the lookup returns that session, never the first client. -/
theorem claim_C3_witness :
    c3FinalState.closed = emptyState.closed ++ [{ id := 1 }] ∧
    countKey { id := "Device1", version := "1.0.0" } c3FinalState.registry = 1 ∧
    lookupReg { id := "Device1", version := "1.0.0" } c3FinalState.registry
      = some c3SecondTarget ∧
    c3SecondTarget.clt = some { id := 2 } ∧
    (GetTarget c3FinalState { id := "Device1", version := "1.0.0" }).1
      = .ok c3SecondTarget ∧
    (∀ t, lookupReg { id := "Device1", version := "1.0.0" } c3FinalState.registry
        = some t → t.clt ≠ some { id := 1 }) :=
  claim_C3 (fun _ => .ok { id := 1 }) (fun _ => .ok { id := 2 }) 8 9
    devicePlain emptyTarget emptyState { id := 1 } { id := 2 } _ _ _ _ _ _
    rfl (by decide) rfl rfl rfl rfl

/-! ## Claim C5 (close) -/

/-- Claim C5, counterexample: calling close() on a session whose client
handle is not set dereferences the nil client interface — modelled as
`none`, the panic outcome — so the call is not a safe no-op as claimed. -/
theorem claim_C5_counterexample :
    TargetCloseOp
      { dest := { Addrs := [], Target := "", Timeout := none, TLS := none,
                  Credentials := none },
        clt := none, ctx := none }
      { registry := [], closed := [] } = none := rfl

/-- Claim C5, amended: when a client is set, close() closes exactly that
currently held client (the close log grows by exactly it); when no client is
set, close() dereferences the nil client handle and panics, so it is only
safe to call with a client set. -/
theorem claim_C5_amended (t : Target) (st : SBState) (c : GnmiClient)
    (h : t.clt = some c) :
    TargetCloseOp t st = some { st with closed := st.closed ++ [c] } := by
  unfold TargetCloseOp
  rw [h]

/-- Claim C5, amended, witness: closing a session holding client 4 records
exactly one close of client 4. -/
theorem claim_C5_amended_witness :
    TargetCloseOp
      { dest := { Addrs := [], Target := "", Timeout := none, TLS := none,
                  Credentials := none },
        clt := some { id := 4 }, ctx := none }
      { registry := [], closed := [{ id := 3 }] }
      = some { registry := [], closed := [{ id := 3 }] ++ [{ id := 4 }] } :=
  claim_C5_amended _ _ { id := 4 } rfl

/-! ## Claim C8 (lookup of an unregistered key) -/

/-- Claim C8: looking up a key that is not in the registry returns a NotFound
error carrying the looked-up key and the enumeration of all currently known
keys, returns no session, and leaves the registry state unchanged (the
embedding is a total function, so no panic is possible on any registry,
including the empty one). -/
theorem claim_C8 (st : SBState) (key : VersionedID)
    (h : containsKey key st.registry = false) :
    GetTarget st key = (.error (.notFound key (knownKeys st.registry)), st) := by
  unfold GetTarget
  rw [lookupReg_eq_none_of_not_contains key st.registry h]

/-- Claim C8, witness: looking up an absent key in a one-entry registry
returns NotFound naming the known key, and the state is untouched. -/
theorem claim_C8_witness :
    GetTarget
      { registry := [({ id := "Device1", version := "1.0.0" },
          { dest := { Addrs := ["localhost:10161"], Target := "", Timeout := none,
                      TLS := none, Credentials := none },
            clt := some { id := 1 }, ctx := some 0 })],
        closed := [] }
      { id := "Device2", version := "2.0.0" }
      = (.error (.notFound { id := "Device2", version := "2.0.0" }
           (knownKeys [({ id := "Device1", version := "1.0.0" },
             { dest := { Addrs := ["localhost:10161"], Target := "", Timeout := none,
                         TLS := none, Credentials := none },
               clt := some { id := 1 }, ctx := some 0 })])),
         { registry := [({ id := "Device1", version := "1.0.0" },
             { dest := { Addrs := ["localhost:10161"], Target := "", Timeout := none,
                         TLS := none, Credentials := none },
               clt := some { id := 1 }, ctx := some 0 })],
           closed := [] }) :=
  claim_C8 _ { id := "Device2", version := "2.0.0" } (by decide)

/-! ## Unary operations and their string-based convenience forms

The gNMI requests are kept as opaque carriers of their prototext form; the
client behind the session is a record of behavior functions, and every
operation also returns the list of client calls it performed, so that
"no transport call is made" is a statement about that list.  `OpError`
distinguishes the typed InvalidArgument errors (`errors.NewInvalid`) from
plain wrapped errors (`fmt.Errorf`). -/

/-- Opaque structured capability request (carries its prototext form). -/
structure CapabilityRequest where
  text : String
  deriving DecidableEq

/-- Opaque structured get request. -/
structure GetRequest where
  text : String
  deriving DecidableEq

/-- Opaque structured set request. -/
structure SetRequest where
  text : String
  deriving DecidableEq

/-- Opaque capability response. -/
structure CapabilityResponse where
  payload : Nat
  deriving DecidableEq

/-- Opaque get response. -/
structure GetResponse where
  payload : Nat
  deriving DecidableEq

/-- Opaque set response. -/
structure SetResponse where
  payload : Nat
  deriving DecidableEq

/-- Session-operation errors: `invalid` is the typed InvalidArgument error of
`errors.NewInvalid`; `plain` is an untyped `fmt.Errorf` error. -/
inductive OpError where
  | invalid (msg : String)
  | plain (msg : String)
  deriving DecidableEq

/-- One call made on the session's pooled protocol client. -/
inductive ClientCall where
  | capabilities (r : CapabilityRequest)
  | get (r : GetRequest)
  | set (r : SetRequest)
  deriving DecidableEq

/-- Behavior of the protocol client behind the session. -/
structure GnmiClientBehavior where
  capabilitiesFn : CapabilityRequest → Except String CapabilityResponse
  getFn : GetRequest → Except String GetResponse
  setFn : SetRequest → Except String SetResponse

/-- Modelled from the library behavior of `proto.UnmarshalText` (an external
collaborator): the text is kept opaque in the request, and parsing the empty
string succeeds with the empty message — the behavior the repository's own
capabilities-with-empty-string test relies on. -/
def unmarshalCapabilityText (s : String) : Except String CapabilityRequest :=
  .ok { text := s }

/-- Modelled from the library behavior of `proto.UnmarshalText`, as above. -/
def unmarshalGetText (s : String) : Except String GetRequest :=
  .ok { text := s }

/-- Modelled from the library behavior of `proto.UnmarshalText`, as above. -/
def unmarshalSetText (s : String) : Except String SetRequest :=
  .ok { text := s }

/-- Capabilities: delegate to the client, wrapping a transport error with the
request's textual form. -/
def TargetCapabilities (c : GnmiClientBehavior) (r : CapabilityRequest) :
    Except OpError CapabilityResponse × List ClientCall :=
  (match c.capabilitiesFn r with
   | .error e =>
       .error (.plain ("target returned RPC error for Capabilities(" ++ r.text
         ++ "): " ++ e))
   | .ok resp => .ok resp,
   [ClientCall.capabilities r])

/-- Get: delegate to the client, wrapping a transport error. -/
def TargetGet (c : GnmiClientBehavior) (r : GetRequest) :
    Except OpError GetResponse × List ClientCall :=
  (match c.getFn r with
   | .error e =>
       .error (.plain ("target returned RPC error for Get(" ++ r.text
         ++ ") : " ++ e))
   | .ok resp => .ok resp,
   [ClientCall.get r])

/-- Set: delegate to the client, wrapping a transport error. -/
def TargetSet (c : GnmiClientBehavior) (r : SetRequest) :
    Except OpError SetResponse × List ClientCall :=
  (match c.setFn r with
   | .error e =>
       .error (.plain ("target returned RPC error for Set(" ++ r.text
         ++ ") : " ++ e))
   | .ok resp => .ok resp,
   [ClientCall.set r])

/-- CapabilitiesWithString: parse the textual request (no empty-string check
in the source — the doc comment there says the string "can be empty") and
delegate. -/
def CapabilitiesWithString (c : GnmiClientBehavior) (request : String) :
    Except OpError CapabilityResponse × List ClientCall :=
  match unmarshalCapabilityText request with
  | .error e =>
      (.error (.plain ("unable to parse gnmi.CapabilityRequest from "
        ++ request ++ " : " ++ e)), [])
  | .ok r => TargetCapabilities c r

/-- GetWithString: reject the empty string with a typed InvalidArgument
before parsing or touching the client. -/
def GetWithString (c : GnmiClientBehavior) (request : String) :
    Except OpError GetResponse × List ClientCall :=
  if request = "" then
    (.error (.invalid "cannot get an empty request"), [])
  else
    match unmarshalGetText request with
    | .error e =>
        (.error (.plain ("unable to parse gnmi.GetRequest from "
          ++ request ++ " : " ++ e)), [])
    | .ok r => TargetGet c r

/-- SetWithString: reject the empty string with a typed InvalidArgument
before parsing or touching the client. -/
def SetWithString (c : GnmiClientBehavior) (request : String) :
    Except OpError SetResponse × List ClientCall :=
  if request = "" then
    (.error (.invalid "cannot set an empty request"), [])
  else
    match unmarshalSetText request with
    | .error e =>
        (.error (.plain ("unable to parse gnmi.SetRequest from "
          ++ request ++ " : " ++ e)), [])
    | .ok r => TargetSet c r

/-- Client-behavior fixture: a stub client answering every request. -/
def stubClient : GnmiClientBehavior :=
  { capabilitiesFn := fun _ => .ok { payload := 0 },
    getFn := fun _ => .ok { payload := 0 },
    setFn := fun _ => .ok { payload := 0 } }

/-! ## Claim C4 (empty string-based requests) -/

/-- Claim C4, counterexample: CapabilitiesWithString with the empty string
does NOT return an InvalidArgument error — it parses the empty string as the
empty capability request, invokes the Capabilities operation on the session's
client (one transport call is recorded) and returns the client's answer. -/
theorem claim_C4_counterexample :
    (CapabilitiesWithString stubClient "").2
        = [ClientCall.capabilities { text := "" }] ∧
    (CapabilitiesWithString stubClient "").1 = .ok { payload := 0 } :=
  ⟨rfl, rfl⟩

/-- Claim C4, amended: GetWithString and SetWithString reject the empty
string with a typed InvalidArgument error ("cannot get an empty request",
"cannot set an empty request") without invoking any operation on the client;
CapabilitiesWithString performs no empty-string check — the empty string
parses as the empty capability request and is delegated to the session's
client, so a transport call IS made there. -/
theorem claim_C4_amended (c : GnmiClientBehavior) :
    GetWithString c "" = (.error (.invalid "cannot get an empty request"), []) ∧
    SetWithString c "" = (.error (.invalid "cannot set an empty request"), []) ∧
    CapabilitiesWithString c "" = TargetCapabilities c { text := "" } ∧
    (CapabilitiesWithString c "").2 = [ClientCall.capabilities { text := "" }] := by
  refine ⟨rfl, rfl, rfl, rfl⟩

/-- Claim C4, amended, witness: the amended behavior evaluated on the stub
client. -/
theorem claim_C4_amended_witness :
    GetWithString stubClient ""
      = (.error (.invalid "cannot get an empty request"), []) ∧
    SetWithString stubClient ""
      = (.error (.invalid "cannot set an empty request"), []) ∧
    CapabilitiesWithString stubClient ""
      = TargetCapabilities stubClient { text := "" } ∧
    (CapabilitiesWithString stubClient "").2
      = [ClientCall.capabilities { text := "" }] :=
  claim_C4_amended stubClient

/-! ## Subscription request builder (`NewSubscribeRequest`)

The enum resolution mirrors the source's switches on
`strings.ToUpper(...)` (restricted to ASCII case mapping, which is exact for
the enum names compared there).  The path-parsing collaborator
(`utils.SplitPath` / `utils.ParseGNMIElements`, outside the examined
fragment) is modelled from the spec.  Failure returns `Except.error`, so no
partial request can be returned, matching the source's `return nil, err`. -/

/-- Go `unicode.ToUpper` on one character, restricted to the part of the
Unicode simple case mapping that can influence a comparison against an
ASCII-only string: the ASCII range itself plus the only two code points
whose uppercase mapping is an ASCII letter — ſ (U+017F) → S and
ı (U+0131) → I.  Every other character is left unchanged where Go may
uppercase it inside its own non-ASCII range; since such a character is
non-ASCII both before and after Go's mapping, a string containing one
differs from every ASCII-only string under both the model and the program,
so all comparisons made by the mode switches agree with the program on
every input. -/
def goCharUpper (c : Char) : Char :=
  if c = 'ſ' then 'S'
  else if c = 'ı' then 'I'
  else c.toUpper

/-- Go `strings.ToUpper`: the per-character mapping applied to the whole
string (Go's ToUpper uses the simple, length-preserving case mapping). -/
def goUpper (s : String) : String := String.mk (s.data.map goCharUpper)

/-- Overall subscription delivery mode (`gpb.SubscriptionList_Mode`). -/
inductive SubscriptionListMode where
  | once
  | poll
  | stream
  deriving DecidableEq

/-- Per-path delivery mode within a stream (`gpb.SubscriptionMode`). -/
inductive SubscriptionMode where
  | targetDefined
  | onChange
  | sample
  deriving DecidableEq

/-- Mode switch of `NewSubscribeRequest`: compare the upper-cased input
against the enum names ONCE, POLL, STREAM; the empty string falls through to
STREAM; anything else is the InvalidArgument error naming the input. -/
def resolveSubscribeMode (s : String) : Except String SubscriptionListMode :=
  let u := goUpper s
  if u = "ONCE" then .ok .once
  else if u = "POLL" then .ok .poll
  else if u = "" then .ok .stream
  else if u = "STREAM" then .ok .stream
  else .error ("subscribe mode (" ++ s ++ ") invalid")

/-- Stream-mode switch of `NewSubscribeRequest`: ON_CHANGE, SAMPLE,
TARGET_DEFINED; the empty string falls through to TARGET_DEFINED. -/
def resolveStreamMode (s : String) : Except String SubscriptionMode :=
  let u := goUpper s
  if u = "ON_CHANGE" then .ok .onChange
  else if u = "SAMPLE" then .ok .sample
  else if u = "" then .ok .targetDefined
  else if u = "TARGET_DEFINED" then .ok .targetDefined
  else .error ("subscribe stream mode (" ++ s ++ ") invalid")

/-- One element of a structured gNMI path: a name plus optional
key-predicates. -/
structure PathElem where
  name : String
  keys : List (String × String)
  deriving DecidableEq

/-- A structured gNMI path (`gnmi.Path`): elements and an origin. -/
structure GPath where
  Elem : List PathElem
  Origin : String
  deriving DecidableEq

/-- Splitting a character list at every occurrence of a separator. -/
def splitOnChar (sep : Char) : List Char → List (List Char)
  | [] => [[]]
  | c :: rest =>
      let r := splitOnChar sep rest
      if c = sep then [] :: r
      else
        match r with
        | [] => [[c]]
        | cur :: tail => (c :: cur) :: tail

/-- Modelled from the spec: one bracketed key predicate of the path language
(the text between a `[` and its closing `]` must be a single `key=value`). -/
def parsePredicate (s : List Char) : Except String (String × String) :=
  match s.reverse with
  | ']' :: bodyRev =>
      (match splitOnChar '=' bodyRev.reverse with
       | [k, v] => .ok (String.mk k, String.mk v)
       | _ => .error ("unsupported key predicate " ++ String.mk s))
  | _ => .error ("malformed key predicate " ++ String.mk s)

/-- Modelled from the spec: all bracketed key predicates of one segment. -/
def parsePredicates : List (List Char) → Except String (List (String × String))
  | [] => .ok []
  | p :: rest =>
      match parsePredicate p with
      | .error e => .error e
      | .ok kv =>
          match parsePredicates rest with
          | .error e => .error e
          | .ok tail => .ok (kv :: tail)

/-- Modelled from the spec: one path segment `name[key=value]...` parsed into
a structured path element; possibly several bracketed predicates. -/
def parseSegment (s : String) : Except String PathElem :=
  match splitOnChar '[' s.data with
  | [] => .error ("empty path segment " ++ s)
  | name :: preds =>
      match parsePredicates preds with
      | .error e => .error e
      | .ok keys => .ok { name := String.mk name, keys := keys }

/-- Modelled from the spec: all segments of one path. -/
def parseElems : List String → Except String (List PathElem)
  | [] => .ok []
  | s :: rest =>
      match parseSegment s with
      | .error e => .error e
      | .ok e =>
          match parseElems rest with
          | .error e => .error e
          | .ok tail => .ok (e :: tail)

/-- Modelled from the spec: the path-parsing collaborator
(`utils.ParseGNMIElements`) — a segment list with optional `[key=value]`
predicates becomes a structured path; a parse failure on any segment aborts
with the underlying error. -/
def parseGNMIElements (elms : List String) : Except String GPath :=
  match parseElems elms with
  | .error e => .error e
  | .ok es => .ok { Elem := es, Origin := "" }

/-- Modelled from the spec: the prefix-splitting collaborator
(`utils.SplitPath`) — a textual path is cut at every `/` into its non-empty
segments. -/
def splitPath (s : String) : List String :=
  ((splitOnChar '/' s.data).filter (fun seg => !seg.isEmpty)).map String.mk

/-- Declarative subscribe options (`SubscribeOptions`), the builder's
input. -/
structure SubscribeOptions where
  UpdatesOnly : Bool
  Prefix : String
  Mode : String
  StreamMode : String
  SampleInterval : Nat
  HeartbeatInterval : Nat
  Paths : List (List String)
  Origin : String
  deriving DecidableEq

/-- One per-path subscription entry (`gpb.Subscription`). -/
structure Subscription where
  Path : GPath
  Mode : SubscriptionMode
  SampleInterval : Nat
  HeartbeatInterval : Nat
  deriving DecidableEq

/-- The subscription list (`gpb.SubscriptionList`). -/
structure SubscriptionList where
  Subs : List Subscription
  Mode : SubscriptionListMode
  UpdatesOnly : Bool
  Prefix : GPath
  deriving DecidableEq

/-- The built subscribe request (`gpb.SubscribeRequest`, subscribe case). -/
structure SubscribeRequest where
  Subscribe : SubscriptionList
  deriving DecidableEq

/-- The builder's per-path loop: parse each path, attach the origin to the
parsed path, and carry the resolved stream mode and the caller's intervals
verbatim; the first parse failure aborts the whole build. -/
def buildSubscriptions (streamMode : SubscriptionMode)
    (sampleInterval heartbeatInterval : Nat) (origin : String) :
    List (List String) → Except String (List Subscription)
  | [] => .ok []
  | p :: rest =>
      match parseGNMIElements p with
      | .error e => .error e
      | .ok g =>
          match buildSubscriptions streamMode sampleInterval heartbeatInterval
              origin rest with
          | .error e => .error e
          | .ok tail =>
              .ok ({ Path := { g with Origin := origin }, Mode := streamMode,
                     SampleInterval := sampleInterval,
                     HeartbeatInterval := heartbeatInterval } :: tail)

/-- NewSubscribeRequest: resolve the two mode strings, parse the prefix, then
build one subscription entry per path, in order. -/
def NewSubscribeRequest (opts : SubscribeOptions) :
    Except String SubscribeRequest :=
  match resolveSubscribeMode opts.Mode with
  | .error e => .error e
  | .ok mode =>
      match resolveStreamMode opts.StreamMode with
      | .error e => .error e
      | .ok streamMode =>
          match parseGNMIElements (splitPath opts.Prefix) with
          | .error e => .error e
          | .ok prefixPath =>
              match buildSubscriptions streamMode opts.SampleInterval
                  opts.HeartbeatInterval opts.Origin opts.Paths with
              | .error e => .error e
              | .ok subs =>
                  .ok { Subscribe := { Subs := subs, Mode := mode,
                                       UpdatesOnly := opts.UpdatesOnly,
                                       Prefix := prefixPath } }

/-- Specification-side helper: all paths parsed independently (used to state
that every path of the options resolves). -/
def parseAllPaths : List (List String) → Except String (List GPath)
  | [] => .ok []
  | p :: rest =>
      match parseGNMIElements p with
      | .error e => .error e
      | .ok g =>
          match parseAllPaths rest with
          | .error e => .error e
          | .ok tail => .ok (g :: tail)

/-! ## Claim C6 (mode-string resolution) -/

/-- Claim C6: the builder resolves the mode string through the upper-casing
switch against ONCE, POLL, STREAM with the empty string defaulting to
STREAM, and the stream-mode string against ON_CHANGE, SAMPLE, TARGET_DEFINED
with the empty string defaulting to TARGET_DEFINED; any unrecognized string
makes the whole build return the error naming the offending value (the error
constructor returns no request at all). -/
theorem claim_C6 (opts : SubscribeOptions) :
    (goUpper opts.Mode = "ONCE" →
      resolveSubscribeMode opts.Mode = .ok .once) ∧
    (goUpper opts.Mode = "POLL" →
      resolveSubscribeMode opts.Mode = .ok .poll) ∧
    (goUpper opts.Mode = "STREAM" ∨ opts.Mode = "" →
      resolveSubscribeMode opts.Mode = .ok .stream) ∧
    (goUpper opts.StreamMode = "ON_CHANGE" →
      resolveStreamMode opts.StreamMode = .ok .onChange) ∧
    (goUpper opts.StreamMode = "SAMPLE" →
      resolveStreamMode opts.StreamMode = .ok .sample) ∧
    (goUpper opts.StreamMode = "TARGET_DEFINED" ∨ opts.StreamMode = "" →
      resolveStreamMode opts.StreamMode = .ok .targetDefined) ∧
    (goUpper opts.Mode ≠ "ONCE" → goUpper opts.Mode ≠ "POLL" →
      goUpper opts.Mode ≠ "STREAM" → goUpper opts.Mode ≠ "" →
      NewSubscribeRequest opts
        = .error ("subscribe mode (" ++ opts.Mode ++ ") invalid")) ∧
    (∀ m, resolveSubscribeMode opts.Mode = .ok m →
      goUpper opts.StreamMode ≠ "ON_CHANGE" → goUpper opts.StreamMode ≠ "SAMPLE" →
      goUpper opts.StreamMode ≠ "TARGET_DEFINED" → goUpper opts.StreamMode ≠ "" →
      NewSubscribeRequest opts
        = .error ("subscribe stream mode (" ++ opts.StreamMode ++ ") invalid")) := by
  refine ⟨?_, ?_, ?_, ?_, ?_, ?_, ?_, ?_⟩
  · intro h
    simp only [resolveSubscribeMode, h]
    rfl
  · intro h
    simp only [resolveSubscribeMode, h]
    rfl
  · intro h
    rcases h with h | h
    · simp only [resolveSubscribeMode, h]
      rfl
    · simp only [resolveSubscribeMode, h]
      rfl
  · intro h
    simp only [resolveStreamMode, h]
    rfl
  · intro h
    simp only [resolveStreamMode, h]
    rfl
  · intro h
    rcases h with h | h
    · simp only [resolveStreamMode, h]
      rfl
    · simp only [resolveStreamMode, h]
      rfl
  · intro h1 h2 h3 h4
    simp only [NewSubscribeRequest, resolveSubscribeMode, if_neg h1, if_neg h2,
      if_neg h4, if_neg h3]
  · intro m hm h1 h2 h3 h4
    simp only [NewSubscribeRequest, hm, resolveStreamMode, if_neg h1, if_neg h2,
      if_neg h4, if_neg h3]

/-- Options fixture: the repository subscribe test's mixed-case mode. -/
def c6OptsStream : SubscribeOptions :=
  { UpdatesOnly := false, Prefix := "", Mode := "Stream", StreamMode := "",
    SampleInterval := 15, HeartbeatInterval := 15, Paths := [], Origin := "" }

/-- Options fixture: the test's lower-case stream mode. -/
def c6OptsTD : SubscribeOptions :=
  { UpdatesOnly := false, Prefix := "", Mode := "",
    StreamMode := "target_defined", SampleInterval := 15,
    HeartbeatInterval := 15, Paths := [], Origin := "" }

/-- Options fixture: an unrecognized mode string. -/
def c6OptsBogus : SubscribeOptions :=
  { UpdatesOnly := false, Prefix := "", Mode := "bogus", StreamMode := "",
    SampleInterval := 15, HeartbeatInterval := 15, Paths := [], Origin := "" }

/-- Options fixture: a long-s mode string, whose Unicode upper-casing is
STREAM. -/
def c6OptsLongS : SubscribeOptions :=
  { UpdatesOnly := false, Prefix := "", Mode := "ſtream", StreamMode := "",
    SampleInterval := 15, HeartbeatInterval := 15, Paths := [], Origin := "" }

/-- Claim C6, witness: the mixed-case strings of the repository's subscribe
test resolve to STREAM and TARGET_DEFINED, the non-ASCII long-s spelling
also upper-cases to STREAM and resolves, and an unrecognized mode string
fails the build with an error naming the offending value. -/
theorem claim_C6_witness :
    resolveSubscribeMode c6OptsStream.Mode = .ok .stream ∧
    resolveStreamMode c6OptsTD.StreamMode = .ok .targetDefined ∧
    resolveSubscribeMode c6OptsLongS.Mode = .ok .stream ∧
    NewSubscribeRequest c6OptsBogus
      = .error ("subscribe mode (" ++ c6OptsBogus.Mode ++ ") invalid") :=
  ⟨(claim_C6 c6OptsStream).2.2.1 (Or.inl (by decide)),
   (claim_C6 c6OptsTD).2.2.2.2.2.1 (Or.inl (by decide)),
   (claim_C6 c6OptsLongS).2.2.1 (Or.inl (by decide)),
   (claim_C6 c6OptsBogus).2.2.2.2.2.2.1
     (by decide) (by decide) (by decide) (by decide)⟩

/-! ## Claim C7 (shape of a successfully built subscribe request) -/

theorem buildSubscriptions_of_parseAllPaths (sm : SubscriptionMode)
    (si hi : Nat) (origin : String) (paths : List (List String))
    (gs : List GPath) (h : parseAllPaths paths = .ok gs) :
    buildSubscriptions sm si hi origin paths
      = .ok (gs.map fun g =>
          { Path := { g with Origin := origin }, Mode := sm,
            SampleInterval := si, HeartbeatInterval := hi }) := by
  induction paths generalizing gs with
  | nil =>
      simp only [parseAllPaths] at h
      injection h with h
      subst h
      rfl
  | cons p rest ih =>
      simp only [parseAllPaths] at h
      cases hp : parseGNMIElements p with
      | error e =>
          rw [hp] at h
          exact Except.noConfusion h
      | ok g =>
          rw [hp] at h
          cases ht : parseAllPaths rest with
          | error e =>
              rw [ht] at h
              exact Except.noConfusion h
          | ok tail =>
              rw [ht] at h
              injection h with h
              subst h
              simp only [buildSubscriptions, hp, ih tail ht, List.map]

/-- Claim C7: when both mode strings resolve and the prefix and all paths
parse, the built request carries updatesOnly and the parsed prefix as given,
and exactly one subscription entry per input path in the same order, each
carrying the resolved stream mode, the caller's sample and heartbeat
intervals verbatim, and the origin attached to every parsed path. -/
theorem claim_C7 (opts : SubscribeOptions) (m : SubscriptionListMode)
    (sm : SubscriptionMode) (pre : GPath) (gs : List GPath)
    (hm : resolveSubscribeMode opts.Mode = .ok m)
    (hs : resolveStreamMode opts.StreamMode = .ok sm)
    (hp : parseGNMIElements (splitPath opts.Prefix) = .ok pre)
    (hall : parseAllPaths opts.Paths = .ok gs) :
    NewSubscribeRequest opts
      = .ok { Subscribe :=
          { Subs := gs.map (fun g =>
              { Path := { g with Origin := opts.Origin }, Mode := sm,
                SampleInterval := opts.SampleInterval,
                HeartbeatInterval := opts.HeartbeatInterval }),
            Mode := m, UpdatesOnly := opts.UpdatesOnly, Prefix := pre } } := by
  have hb := buildSubscriptions_of_parseAllPaths sm opts.SampleInterval
    opts.HeartbeatInterval opts.Origin opts.Paths gs hall
  simp only [NewSubscribeRequest, hm, hs, hp, hb]

/-- Options fixture: the repository subscribe test's options, with an origin
to make the origin attachment observable. -/
def c7Opts : SubscribeOptions :=
  { UpdatesOnly := false, Prefix := "", Mode := "Stream",
    StreamMode := "target_defined", SampleInterval := 15,
    HeartbeatInterval := 15, Paths := [["a", "b", "c"]],
    Origin := "openconfig" }

/-- Path fixture: the parsed three-segment path of the fixture options. -/
def c7ParsedPath : GPath :=
  { Elem := [{ name := "a", keys := [] }, { name := "b", keys := [] },
             { name := "c", keys := [] }],
    Origin := "" }

/-- Path fixture: the parsed empty prefix. -/
def c7EmptyPrefix : GPath := { Elem := [], Origin := "" }

/-- Claim C7, witness: the fixture options build a request with list mode
STREAM, the empty parsed prefix, and exactly one TARGET_DEFINED subscription
for the three-segment path with intervals 15 and the origin attached. -/
theorem claim_C7_witness :
    NewSubscribeRequest c7Opts
      = .ok { Subscribe :=
          { Subs := [{ Path := { c7ParsedPath with Origin := "openconfig" },
                       Mode := .targetDefined, SampleInterval := 15,
                       HeartbeatInterval := 15 }],
            Mode := .stream, UpdatesOnly := false,
            Prefix := c7EmptyPrefix } } :=
  claim_C7 c7Opts .stream .targetDefined c7EmptyPrefix [c7ParsedPath]
    rfl rfl rfl rfl

/-! ## Subscribe on a Target Session (`Subscribe`)

The query (`client.Query`) is a record whose connection-relevant fields the
method copies from the session destination; the part produced by the external
`client.NewQuery` is abstracted as an opaque payload.  The method's effect —
which client the subscription was issued on — is returned explicitly, and the
session itself is returned so frame conditions are statements about it. -/

/-- The query handed to the dedicated subscription client. -/
structure Query where
  base : Nat
  Addrs : List String
  Timeout : Option Nat
  Target : String
  Credentials : Option Creds
  TLS : Option TLSConfig
  handlerId : Nat
  deriving DecidableEq

/-- Subscribe: build the query from the request via the library's NewQuery
(abstracted, may fail), copy the session destination's fields and the handler
into it, obtain a BRAND-NEW client from the base client factory and issue the
subscription on it; the session is not modified. -/
def TargetSubscribe (newQuery : SubscribeRequest → Except String Nat)
    (baseFactory : Unit → GnmiClient)
    (subscribeCall : GnmiClient → Query → Except String Unit)
    (t : Target) (request : SubscribeRequest) (handler : Nat) :
    Except String Unit × Option (GnmiClient × Query) × Target :=
  match newQuery request with
  | .error e => (.error e, none, t)
  | .ok b =>
      let q : Query :=
        { base := b, Addrs := t.dest.Addrs, Timeout := t.dest.Timeout,
          Target := t.dest.Target, Credentials := t.dest.Credentials,
          TLS := t.dest.TLS, handlerId := handler }
      let c := baseFactory ()
      let r : Except String Unit :=
        match subscribeCall c q with
        | .error e => .error ("could not create a gNMI for subscription: " ++ e)
        | .ok _ => .ok ()
      (r, some (c, q), t)

/-! ## Claim C9 (subscribe never touches the pooled client) -/

/-- Claim C9: Subscribe returns the session unchanged (same stored client,
destination and context); whenever a subscription is issued, the client it is
issued on is the base factory's brand-new client; and the whole outcome is
independent of the session's pooled client handle — replacing it by any
value changes neither the result nor the issued subscription. -/
theorem claim_C9 (newQuery : SubscribeRequest → Except String Nat)
    (baseFactory : Unit → GnmiClient)
    (subscribeCall : GnmiClient → Query → Except String Unit)
    (t : Target) (request : SubscribeRequest) (handler : Nat) :
    (TargetSubscribe newQuery baseFactory subscribeCall t request handler).2.2
      = t ∧
    (∀ c q, (TargetSubscribe newQuery baseFactory subscribeCall t request
        handler).2.1 = some (c, q) → c = baseFactory ()) ∧
    (∀ x, (TargetSubscribe newQuery baseFactory subscribeCall
        { t with clt := x } request handler).1
      = (TargetSubscribe newQuery baseFactory subscribeCall t request handler).1
      ∧ (TargetSubscribe newQuery baseFactory subscribeCall
        { t with clt := x } request handler).2.1
      = (TargetSubscribe newQuery baseFactory subscribeCall t request
          handler).2.1) := by
  unfold TargetSubscribe
  cases newQuery request with
  | error e =>
      refine ⟨rfl, ?_, fun x => ⟨rfl, rfl⟩⟩
      intro c q hcq
      exact Option.noConfusion hcq
  | ok b =>
      refine ⟨rfl, ?_, fun x => ⟨rfl, rfl⟩⟩
      intro c q hcq
      injection hcq with h
      exact (congrArg Prod.fst h).symm

/-- Session fixture: a session holding a pooled client and a destination. -/
def c9Target : Target :=
  { dest := { Addrs := ["127.0.0.1"], Target := "", Timeout := none,
              TLS := none, Credentials := none },
    clt := some { id := 3 }, ctx := some 1 }

/-- Request fixture: an empty subscribe request. -/
def c9Request : SubscribeRequest :=
  { Subscribe := { Subs := [], Mode := .stream, UpdatesOnly := false,
                   Prefix := { Elem := [], Origin := "" } } }

/-- Query fixture: the query Subscribe builds from the fixture session. -/
def c9Query : Query :=
  { base := 0, Addrs := ["127.0.0.1"], Timeout := none, Target := "",
    Credentials := none, TLS := none, handlerId := 11 }

/-- Claim C9, witness: on the fixture session, Subscribe leaves the session
untouched and the recorded subscription client is the factory's fresh client
7, not the pooled client 3. -/
theorem claim_C9_witness :
    (TargetSubscribe (fun _ => .ok 0) (fun _ => { id := 7 })
        (fun _ _ => .ok ()) c9Target c9Request 11).2.2 = c9Target ∧
    ({ id := 7 } : GnmiClient)
      = (fun _ : Unit => ({ id := 7 } : GnmiClient)) () :=
  ⟨(claim_C9 (fun _ => .ok 0) (fun _ => { id := 7 }) (fun _ _ => .ok ())
      c9Target c9Request 11).1,
   (claim_C9 (fun _ => .ok 0) (fun _ => { id := 7 }) (fun _ _ => .ok ())
      c9Target c9Request 11).2.1 { id := 7 } c9Query rfl⟩

end OnosConfig
